import Mathlib

/-!
Verification of the browser-agent skill-dispatch layer.

This file shallowly embeds the parts of the `inference-gateway/browser-agent`
repository that the claims touch: the weakly typed argument maps handed to
skill handlers, the URL normalisation of `navigate_to_url`, the selector /
click flow of `click_element`, the script security validation of
`execute_script`, the legacy-map parsing and JSON normalisation of
`extract_data`, the screenshot parameter validation, the artifact registry
and the runtime artifact path computation, and the session-acquisition
methods of the skills.  Driver operations (Playwright), the filesystem and
the clock are modelled as explicit oracles; each handler additionally
returns the ordered list of driver calls it performed, so that statements
of the form "before any driver call" are expressible.

Machine integers are modelled as `Int`/`Nat` (no overflow is reachable in
the embedded code paths), Go errors as `String`, and fallible Go functions
as `Except String`.
-/

namespace BrowserAgent

set_option maxRecDepth 100000

/-- Dynamic argument values as delivered to skill handlers (Go `any`):
strings, ints, float64s, bools, arrays, nested maps and nil.  A `float64`
is modelled by an `Int`: every float the skills receive at the boundaries
exercised by the claims is integral, and the only operation the handlers
apply to a float is the truncating conversion `int(f)`, which is the
identity on integral values. -/
inductive GoVal where
  | str (s : String)
  | int (n : Int)
  | float (n : Int)
  | bool (b : Bool)
  | arr (xs : List GoVal)
  | map (kvs : List (String × GoVal))
  | nil

/-- Whether `sub` is a leading segment of `s` (on character lists). -/
def leadsChars : List Char → List Char → Bool
  | [], _ => true
  | _ :: _, [] => false
  | a :: as, b :: bs => a == b && leadsChars as bs

/-- Go `strings.HasPrefix` (character-list based, so that proofs can
evaluate it). -/
def strStarts (s pre : String) : Bool :=
  leadsChars pre.data s.data

/-- Go `strings.HasSuffix`. -/
def strEnds (s suf : String) : Bool :=
  leadsChars suf.data.reverse s.data.reverse

/-- ASCII lower-casing of a character. -/
def asciiLowerChar (c : Char) : Char :=
  if 'A' ≤ c && c ≤ 'Z' then Char.ofNat (c.toNat + 32) else c

/-- Go `strings.ToLower`, restricted to ASCII (every embedded input is
ASCII). -/
def strToLower (s : String) : String :=
  String.mk (s.data.map asciiLowerChar)

/-- Byte-lexicographic `≤` on character lists (Go string ordering on the
ASCII inputs in scope). -/
def charListLe : List Char → List Char → Bool
  | [], _ => true
  | _ :: _, [] => false
  | a :: as, b :: bs => if a = b then charListLe as bs else decide (a < b)

/-- Argument-map lookup, `args["k"]` on a Go `map[string]any` modelled as an
association list (first binding wins; skill argument maps have distinct
keys). -/
def lookupArg (args : List (String × GoVal)) (k : String) : Option GoVal :=
  (args.find? (fun kv => kv.1 == k)).map (·.2)

/-- Go type assertion `v.(string)`. -/
def GoVal.asStr : GoVal → Option String
  | .str s => some s
  | _ => none

/-- Go type assertion `v.(int)` (succeeds only on a value of static type `int`). -/
def GoVal.asInt : GoVal → Option Int
  | .int n => some n
  | _ => none

/-- Go type assertion `v.(float64)` followed by the truncation `int(f)`
(exact here because the modelled floats are integral). -/
def GoVal.asFloat : GoVal → Option Int
  | .float n => some n
  | _ => none

/-- Go type assertion `v.(bool)`. -/
def GoVal.asBool : GoVal → Option Bool
  | .bool b => some b
  | _ => none

/-- Go type assertion `v.([]any)`. -/
def GoVal.asArr : GoVal → Option (List GoVal)
  | .arr xs => some xs
  | _ => none

/-- Go type assertion `v.(map[string]any)`. -/
def GoVal.asMap : GoVal → Option (List (String × GoVal))
  | .map kvs => some kvs
  | _ => none

/-- A browser session as the skills see it (`playwright.BrowserSession`).
The driver handles are owned by the session manager; the only handle state a
skill inspects is whether `session.Page` is nil (`click_element`'s iframe
check), kept here as `hasPage`. -/
structure BrowserSession where
  id : String
  hasPage : Bool
deriving DecidableEq, Repr

/-- The slice of the `playwright.BrowserAutomation` interface consumed by the
embedded skills, as a response oracle: each field holds the result the driver
would return for the corresponding operation.  `iframeCount` models
`session.Page.Locator("iframe").Count()`. -/
structure BrowserAutomation where
  getOrCreateTaskSession : Except String BrowserSession
  getOrCreateDefaultSession : Except String BrowserSession
  getSession : String → Except String BrowserSession
  navigateToURL : String → String → String → Int → Except String Unit
  waitForCondition : String → String → String → String → Int → Except String Unit
  clickElement : String → String → Except String Unit
  fillForm : String → Except String Unit
  takeScreenshot : String → String → Bool → String → String → Int → Except String Unit
  executeScript : String → String → Except String GoVal
  extractData : String → Except String String
  iframeCount : String → Except String Int

/-- One call into the driver, recorded in order by the embedded handlers. -/
inductive DriverCall where
  | getOrCreateTaskSession
  | getOrCreateDefaultSession
  | getSession (sessionID : String)
  | navigateToURL (sessionID url waitUntil : String) (timeoutMs : Int)
  | waitForCondition (sessionID condition selector state : String) (timeoutMs : Int)
  | clickElement (sessionID selector : String)
  | fillForm (sessionID : String)
  | takeScreenshot (sessionID path : String) (fullPage : Bool) (selector imageType : String) (quality : Int)
  | executeScript (sessionID script : String)
  | extractData (sessionID : String)
  | iframeCount (sessionID : String)
deriving DecidableEq, Repr

/-! ### Go `net/url` parsing, as consumed by `validateAndNormalizeURL`

`navigate_to_url` delegates URL parsing to the Go standard library.  The
model below follows `net/url.Parse` (`getScheme`, the first-path-segment
colon rule, authority/host splitting, `URL.String`) restricted to the parts
`validateAndNormalizeURL` consults: parse success, `Scheme`, `Host` and the
re-serialised string.  Percent-decoding and host-character validation are
not modelled (no embedded claim touches an escaped or invalid-host URL). -/

/-- A parsed URL (`net/url.URL`), with the fields the embedding consults.
`opaq` models `URL.Opaque` (set when a scheme is followed by a non-`/` rest). -/
structure GoURL where
  scheme : String
  opaq : String
  host : String
  path : String
  rawQuery : String
  fragment : String
deriving DecidableEq, Repr

/-- Scheme letters: `a-z`, `A-Z` (first character of a scheme). -/
def isSchemeAlpha (c : Char) : Bool :=
  ('a' ≤ c && c ≤ 'z') || ('A' ≤ c && c ≤ 'Z')

/-- Further scheme characters: digits, `+`, `-`, `.`. -/
def isSchemeExtra (c : Char) : Bool :=
  c.isDigit || c == '+' || c == '-' || c == '.'

/-- `net/url.getScheme`: scan for `scheme:`; on a character that cannot occur
in a scheme the whole input is returned with an empty scheme; a leading `:`
is an error. -/
def getSchemeAux (orig : String) : List Char → List Char → Except String (String × String)
  | [], _ => .ok ("", orig)
  | c :: rest, acc =>
    if isSchemeAlpha c then
      getSchemeAux orig rest (acc ++ [c])
    else if isSchemeExtra c then
      if acc.isEmpty then .ok ("", orig) else getSchemeAux orig rest (acc ++ [c])
    else if c == ':' then
      if acc.isEmpty then .error "missing protocol scheme"
      else .ok (String.mk acc, String.mk rest)
    else .ok ("", orig)

/-- `net/url.getScheme` on a string. -/
def getScheme (raw : String) : Except String (String × String) :=
  getSchemeAux raw raw.data []

/-- Split `s` at the first occurrence of `sep`: `(before, after)`;
`after = ""` when `sep` does not occur (Go `strings.Cut`). -/
def cutAt (sep : Char) (s : String) : String × String :=
  match s.data.findIdx? (· == sep) with
  | none => (s, "")
  | some i => (String.mk (s.data.take i), String.mk (s.data.drop (i + 1)))

/-- Whether `s` contains a character satisfying `p`. -/
def strAny (s : String) (p : Char → Bool) : Bool :=
  s.data.any p

/-- Go CTL bytes: `c < 0x20` or `c = 0x7f`. -/
def isCtlChar (c : Char) : Bool :=
  c.toNat < 0x20 || c.toNat == 0x7f

/-- Authority parsing (`net/url.parseAuthority`), minus host-character
validation: the host is the part after the last `@`. -/
def parseAuthorityHost (authority : String) : String :=
  match (authority.data.reverse.findIdx? (· == '@')) with
  | none => authority
  | some iRev => String.mk (authority.data.drop (authority.data.length - iRev))

/-- `net/url.parse` with `viaRequest = false`, on input with the fragment
already removed. -/
def goURLParseNoFrag (rawURL : String) : Except String GoURL :=
  if strAny rawURL isCtlChar then
    .error "net/url: invalid control character in URL"
  else if rawURL = "*" then
    .ok ⟨"", "", "", "*", "", ""⟩
  else
    match getScheme rawURL with
    | .error e => .error e
    | .ok (scheme0, rest0) =>
      let scheme := strToLower scheme0
      let (rest, rawQuery) := cutAt '?' rest0
      if ¬ strStarts rest "/" then
        if scheme ≠ "" then
          .ok ⟨scheme, rest, "", "", rawQuery, ""⟩
        else
          let segment := (cutAt '/' rest).1
          if strAny segment (· == ':') then
            .error "first path segment in URL cannot contain colon"
          else
            .ok ⟨scheme, "", "", rest, rawQuery, ""⟩
      else
        if (scheme ≠ "" || ¬ strStarts rest "///") && strStarts rest "//" then
          let afterSlashes := String.mk (rest.data.drop 2)
          let (authority, path) :=
            match afterSlashes.data.findIdx? (· == '/') with
            | none => (afterSlashes, "")
            | some i => (String.mk (afterSlashes.data.take i), String.mk (afterSlashes.data.drop i))
          .ok ⟨scheme, "", parseAuthorityHost authority, path, rawQuery, ""⟩
        else
          .ok ⟨scheme, "", "", rest, rawQuery, ""⟩

/-- `%q` of a plain string (no characters needing escapes occur in the
embedded inputs). -/
def goQuote (s : String) : String :=
  "\"" ++ s ++ "\""

/-- `net/url.Parse`: split the fragment, parse, and wrap errors as
`&url.Error{"parse", u, err}` whose message is `parse "<u>": <err>`. -/
def goURLParse (rawURL : String) : Except String GoURL :=
  let (u, frag) := cutAt '#' rawURL
  match goURLParseNoFrag u with
  | .error e => .error ("parse " ++ goQuote u ++ ": " ++ e)
  | .ok p => .ok { p with fragment := frag }

/-- `net/url.URL.String` for the URLs produced by this flow (escaping not
modelled; `validateAndNormalizeURL` only serialises URLs whose scheme is
`http`/`https` and whose host is non-empty). -/
def GoURL.string (u : GoURL) : String :=
  (if u.scheme ≠ "" then u.scheme ++ ":" else "") ++
    (if u.opaq ≠ "" then u.opaq
     else
       (if u.scheme ≠ "" || u.host ≠ "" then
         (if u.host ≠ "" || u.path ≠ "" then "//" else "") ++ u.host
        else "") ++ u.path) ++
    (if u.rawQuery ≠ "" then "?" ++ u.rawQuery else "") ++
    (if u.fragment ≠ "" then "#" ++ u.fragment else "")

/-! ### `navigate_to_url` (src/skills/navigate_to_url.go) -/

/-- The scheme/host checks and re-serialisation that
`NavigateToURLSkill.validateAndNormalizeURL` performs on the final parsed
URL (src/skills/navigate_to_url.go:138-146). -/
def checkParsedURL (p : GoURL) : Except String String :=
  if p.scheme ≠ "http" && p.scheme ≠ "https" then
    .error ("unsupported URL scheme: " ++ p.scheme ++ ". Only http and https are supported")
  else if p.host = "" then
    .error "URL must include a valid host"
  else
    .ok p.string

/-- `NavigateToURLSkill.validateAndNormalizeURL`
(src/skills/navigate_to_url.go:120-147): parse; on an empty scheme prepend
`https://` and re-parse; then check scheme and host. -/
def validateAndNormalizeURL (urlStr : String) : Except String String :=
  if urlStr = "" then .error "URL cannot be empty"
  else
    match goURLParse urlStr with
    | .error e => .error ("invalid URL format: " ++ e)
    | .ok p =>
      if p.scheme = "" then
        match goURLParse ("https://" ++ urlStr) with
        | .error e => .error ("invalid URL format: " ++ e)
        | .ok p2 => checkParsedURL p2
      else checkParsedURL p

/-- `NavigateToURLSkill.isValidWaitCondition` (src/skills/navigate_to_url.go:150-158). -/
def isValidWaitCondition (condition : String) : Bool :=
  ["domcontentloaded", "load", "networkidle"].contains condition

/-- The `wait_until` extraction of `NavigateToURLHandler`
(src/skills/navigate_to_url.go:67-73): a present non-empty string must be a
valid wait condition; anything else (absent, wrong kind, empty) leaves the
default `"load"`. -/
def navWaitUntil (args : List (String × GoVal)) : Except String String :=
  match lookupArg args "wait_until" with
  | some (.str wu) =>
    if wu ≠ "" then
      if ¬ isValidWaitCondition wu then
        .error ("invalid wait_until value: " ++ wu ++ ". Must be one of: domcontentloaded, load, networkidle")
      else .ok wu
    else .ok "load"
  | _ => .ok "load"

/-- The `timeout` extraction of `NavigateToURLHandler`
(src/skills/navigate_to_url.go:75-80): an `int` > 0, else a `float64` > 0,
else the default 30000.  A present value of any other kind falls through to
the default. -/
def navTimeout (args : List (String × GoVal)) : Int :=
  match lookupArg args "timeout" with
  | some (.int t) => if t > 0 then t else 30000
  | some (.float tf) => if tf > 0 then tf else 30000
  | _ => 30000

/-- Go `fmt` rendering of a scalar under `%v`/`%+v`. -/
def goFmtScalar : GoVal → String
  | .str s => s
  | .int n => toString n
  | .float n => toString n
  | .bool b => cond b "true" "false"
  | .nil => "<nil>"
  | .arr _ => ""
  | .map _ => ""

/-- Insert into a key-sorted association list (Go `fmt` prints map keys in
sorted order). -/
def insertSortedKV (kv : String × GoVal) : List (String × GoVal) → List (String × GoVal)
  | [] => [kv]
  | x :: xs => if charListLe kv.1.data x.1.data then kv :: x :: xs else x :: insertSortedKV kv xs

/-- Sort an association list by key. -/
def sortByKey (l : List (String × GoVal)) : List (String × GoVal) :=
  l.foldr insertSortedKV []

/-- Go `fmt.Sprintf("%+v", m)` for a `map[string]any` whose values are
scalars or arrays/maps of scalars (the shape of every embedded response
map): `map[k1:v1 k2:v2 ...]` with keys sorted. -/
def goFmtPlusV (kvs : List (String × GoVal)) : String :=
  "map[" ++
    " ".intercalate
      ((sortByKey kvs).map (fun kv =>
        kv.1 ++ ":" ++
          (match kv.2 with
           | .arr xs => "[" ++ " ".intercalate (xs.map goFmtScalar) ++ "]"
           | .map inner =>
             "map[" ++ " ".intercalate ((sortByKey inner).map (fun kv2 => kv2.1 ++ ":" ++ goFmtScalar kv2.2)) ++ "]"
           | v => goFmtScalar v))) ++
    "]"

/-- `NavigateToURLSkill.NavigateToURLHandler`
(src/skills/navigate_to_url.go:54-117).  Returns the recorded driver calls
and the handler's `(string, error)` result as `Except`.  The successful
response is serialised with `fmt.Sprintf("%+v", response)` — not JSON. -/
def navigateToURLHandler (pw : BrowserAutomation) (args : List (String × GoVal)) :
    List DriverCall × Except String String :=
  match lookupArg args "url" with
  | some (.str url0) =>
    if url0 = "" then ([], .error "url parameter is required and must be a non-empty string")
    else
      match validateAndNormalizeURL url0 with
      | .error e => ([], .error ("invalid URL: " ++ e))
      | .ok url =>
        match navWaitUntil args with
        | .error e => ([], .error e)
        | .ok waitUntil =>
          let timeout := navTimeout args
          match pw.getOrCreateTaskSession with
          | .error e => ([.getOrCreateTaskSession], .error ("failed to get browser session: " ++ e))
          | .ok session =>
            match pw.navigateToURL session.id url waitUntil timeout with
            | .error e =>
              ([.getOrCreateTaskSession, .navigateToURL session.id url waitUntil timeout],
               .error ("navigation failed: " ++ e))
            | .ok _ =>
              ([.getOrCreateTaskSession, .navigateToURL session.id url waitUntil timeout],
               .ok (goFmtPlusV
                 [("success", .bool true),
                  ("url", .str url),
                  ("wait_until", .str waitUntil),
                  ("timeout_ms", .int timeout),
                  ("session_id", .str session.id),
                  ("message", .str "Navigation completed successfully")]))
  | _ => ([], .error "url parameter is required and must be a non-empty string")

/-! ### `click_element` (src/unnamed/part_001:323-572) -/

/-- Go `unicode.IsSpace` on ASCII (the trimmed selectors are ASCII):
space, tab, newline, vertical tab, form feed, carriage return. -/
def isGoSpace (c : Char) : Bool :=
  c == ' ' || c == '\t' || c == '\n' || c == '\x0b' || c == '\x0c' || c == '\r'

/-- Go `strings.TrimSpace`. -/
def goTrimSpace (s : String) : String :=
  String.mk (((s.data.dropWhile isGoSpace).reverse.dropWhile isGoSpace).reverse)

/-- Whether `sub` occurs inside `s` (on character lists). -/
def infixChars (sub : List Char) : List Char → Bool
  | [] => leadsChars sub []
  | c :: cs => leadsChars sub (c :: cs) || infixChars sub cs

/-- Go `strings.Contains`. -/
def containsSubstr (s sub : String) : Bool :=
  infixChars sub.data s.data

/-- `ClickElementSkill.isValidButton` (src/unnamed/part_001:484-492). -/
def isValidButton (button : String) : Bool :=
  ["left", "right", "middle"].contains button

/-- `ClickElementSkill.normalizeSelector` (src/unnamed/part_001:495-530).
Returns `(normalised selector, selector type)`.  The anchored regex
`^(text=|:text\(|:has-text\(|:text-is\(|:text-matches\()` is a disjunction
of literal alternatives and is modelled by `startsWith` checks.  The Go
quote-stripping `selector[1 : len(selector)-1]` panics on the one-character
inputs `"'"`/`"\""`; the model returns the empty inner text there (no claim
touches that input). -/
def normalizeSelector (selector0 : String) : String × String :=
  let selector := goTrimSpace selector0
  if strStarts selector "/" || strStarts selector "//" || strStarts selector "xpath=" then
    if strStarts selector "xpath=" then (String.mk (selector.data.drop 6), "xpath")
    else (selector, "xpath")
  else if strStarts selector "text=" || strStarts selector ":text(" ||
      strStarts selector ":has-text(" || strStarts selector ":text-is(" ||
      strStarts selector ":text-matches(" then
    (selector, "text")
  else if containsSubstr selector "text=" ||
      (strStarts selector "\x27" && strEnds selector "\x27") ||
      (strStarts selector "\"" && strEnds selector "\"") then
    if (strStarts selector "\x27" && strEnds selector "\x27") ||
        (strStarts selector "\"" && strEnds selector "\"") then
      ("text=" ++ String.mk (selector.data.drop 1).dropLast, "text")
    else (selector, "text")
  else if strStarts selector "role=" || containsSubstr selector "[role=" then
    (selector, "role")
  else if containsSubstr selector "data-testid" || containsSubstr selector "test-id" then
    (selector, "testid")
  else (selector, "css")

/-- `ClickElementSkill.checkElementInIframes` (src/unnamed/part_001:553-572):
always produces an error; when iframes are present it reports that
cross-frame clicking is not implemented. -/
def checkElementInIframes (pw : BrowserAutomation) (session : BrowserSession)
    (selector : String) : List DriverCall × String :=
  if ¬ session.hasPage then
    ([], "element not found: " ++ selector ++ " (page not available)")
  else
    match pw.iframeCount session.id with
    | .error e => ([.iframeCount session.id], "element not found and iframe check failed: " ++ e)
    | .ok n =>
      if n = 0 then ([.iframeCount session.id], "element not found: " ++ selector)
      else
        ([.iframeCount session.id],
         "element not found in main frame, " ++ toString n ++
           " iframes detected but cross-frame clicking not yet implemented")

/-- `ClickElementSkill.waitForElementActionable` (src/unnamed/part_001:533-550):
looks the session up again, waits for the selector to be visible, and on
failure falls through to the iframe check — which always returns an error,
regardless of `force`. -/
def waitForElementActionable (pw : BrowserAutomation) (sessionID selector : String)
    (timeoutMs : Int) : List DriverCall × Except String Unit :=
  match pw.getSession sessionID with
  | .error e => ([.getSession sessionID], .error ("failed to get session: " ++ e))
  | .ok session =>
    match pw.waitForCondition sessionID "selector" selector "visible" timeoutMs with
    | .ok _ =>
      ([.getSession sessionID, .waitForCondition sessionID "selector" selector "visible" timeoutMs], .ok ())
    | .error _ =>
      let (calls, msg) := checkElementInIframes pw session selector
      ([.getSession sessionID, .waitForCondition sessionID "selector" selector "visible" timeoutMs] ++ calls,
       .error msg)

/-- The `click_count` extraction of `ClickElementHandler`
(src/unnamed/part_001:401-406): an `int` > 0, else a `float64` > 0, else the
default 1; a present value of any other kind falls through to the default. -/
def clickCount (args : List (String × GoVal)) : Int :=
  match lookupArg args "click_count" with
  | some (.int c) => if c > 0 then c else 1
  | some (.float cf) => if cf > 0 then cf else 1
  | _ => 1

/-- The `force` extraction of `ClickElementHandler`
(src/unnamed/part_001:408-411): a present `bool`, else false. -/
def clickForce (args : List (String × GoVal)) : Bool :=
  match lookupArg args "force" with
  | some (.bool f) => f
  | _ => false

/-- The `timeout` extraction of `ClickElementHandler`
(src/unnamed/part_001:413-418), identical to the navigate one. -/
def clickTimeout (args : List (String × GoVal)) : Int :=
  match lookupArg args "timeout" with
  | some (.int t) => if t > 0 then t else 30000
  | some (.float tf) => if tf > 0 then tf else 30000
  | _ => 30000

/-- `ClickElementSkill.ClickElementHandler` (src/unnamed/part_001:387-481).
Note that the extracted `force` flag is placed in the driver options but is
never consulted before the `element not actionable` early return. -/
def clickElementHandler (pw : BrowserAutomation) (args : List (String × GoVal)) :
    List DriverCall × Except String String :=
  match lookupArg args "selector" with
  | some (.str selector) =>
    if selector = "" then ([], .error "selector parameter is required and must be a non-empty string")
    else
      let buttonCheck : Except String String :=
        match lookupArg args "button" with
        | some (.str b) =>
          if b ≠ "" then
            if ¬ isValidButton b then
              .error ("invalid button value: " ++ b ++ ". Must be one of: left, right, middle")
            else .ok b
          else .ok "left"
        | _ => .ok "left"
      match buttonCheck with
      | .error e => ([], .error e)
      | .ok button =>
        let cc := clickCount args
        let force := clickForce args
        let timeout := clickTimeout args
        match pw.getOrCreateTaskSession with
        | .error e => ([.getOrCreateTaskSession], .error ("failed to get browser session: " ++ e))
        | .ok session =>
          let (normalizedSelector, selectorType) := normalizeSelector selector
          let (waitCalls, waitRes) := waitForElementActionable pw session.id normalizedSelector timeout
          match waitRes with
          | .error e =>
            (.getOrCreateTaskSession :: waitCalls, .error ("element not actionable: " ++ e))
          | .ok _ =>
            match pw.clickElement session.id normalizedSelector with
            | .error e =>
              (.getOrCreateTaskSession :: waitCalls ++ [.clickElement session.id normalizedSelector],
               .error ("click failed: " ++ e))
            | .ok _ =>
              (.getOrCreateTaskSession :: waitCalls ++ [.clickElement session.id normalizedSelector],
               .ok (goFmtPlusV
                 [("success", .bool true),
                  ("selector", .str selector),
                  ("button", .str button),
                  ("click_count", .int cc),
                  ("force", .bool force),
                  ("timeout_ms", .int timeout),
                  ("session_id", .str session.id),
                  ("selector_type", .str selectorType),
                  ("message", .str "Element clicked successfully")]))
  | _ => ([], .error "selector parameter is required and must be a non-empty string")

/-- Whether a recorded driver call is a `ClickElement` invocation. -/
def DriverCall.isClick : DriverCall → Bool
  | .clickElement _ _ => true
  | _ => false

/-! ### `execute_script` (src/unnamed/part_008:1-294)

The deny-list patterns use only three regex constructs: literal characters
(including escaped `\(`, `\.`), `\s*`, and the character class `['"]`.  They
are compiled here to token lists.  In every pattern, `\s*` is immediately
followed by a token that matches no whitespace character, so the greedy
whitespace consumption below is equivalent to the regex semantics.  Go's
`\s` is the class `[\t\n\f\r ]`. -/

/-- Go regexp `\s`: `[\t\n\f\r ]` (no vertical tab). -/
def isGoRegexSpace (c : Char) : Bool :=
  c == '\t' || c == '\n' || c == '\x0c' || c == '\r' || c == ' '

/-- One token of a compiled deny-list pattern. -/
inductive PatTok where
  | lit (c : Char)
  | wsStar
  | cls (cs : List Char)
deriving DecidableEq, Repr

/-- A run of literal tokens. -/
def lits (s : String) : List PatTok :=
  s.data.map PatTok.lit

/-- The character class `['"]`. -/
def quoteCls : PatTok :=
  .cls ['\x27', '"']

/-- `require\s*\(\s*['"]<m>['"]`. -/
def requireToks (m : String) : List PatTok :=
  lits "require" ++ [.wsStar, .lit '(', .wsStar, quoteCls] ++ lits m ++ [quoteCls]

/-- `<f>\s*\(`. -/
def callToks (f : String) : List PatTok :=
  lits f ++ [.wsStar, .lit '(']

/-- `<pre>\s*=`. -/
def assignToks (pre : String) : List PatTok :=
  lits pre ++ [.wsStar, .lit '=']

/-- Match a compiled pattern at the head of the character list (greedy
`\s*`, justified above). -/
def matchToksAt : List PatTok → List Char → Bool
  | [], _ => true
  | .lit c :: ps, d :: ds => c == d && matchToksAt ps ds
  | .lit _ :: _, [] => false
  | .cls cs :: ps, d :: ds => cs.contains d && matchToksAt ps ds
  | .cls _ :: _, [] => false
  | .wsStar :: ps, ds => matchToksAt ps (ds.dropWhile isGoRegexSpace)

/-- Unanchored search (Go `regexp.MatchString`). -/
def searchToks (ps : List PatTok) : List Char → Bool
  | [] => matchToksAt ps []
  | d :: ds => matchToksAt ps (d :: ds) || searchToks ps ds

/-- The `dangerousPatterns` deny-list of
`ExecuteScriptSkill.validateScriptSecurity` (src/unnamed/part_008:193-221),
as `(source text, compiled tokens)` pairs, in source order.  Note that the
`localStorage\.clear` and `sessionStorage\.clear` patterns contain
upper-case letters although they are matched against the lower-cased
script. -/
def dangerousPatterns : List (String × List PatTok) :=
  [("require\\s*\\(\\s*[\x27\"]fs[\x27\"]", requireToks "fs"),
   ("require\\s*\\(\\s*[\x27\"]path[\x27\"]", requireToks "path"),
   ("require\\s*\\(\\s*[\x27\"]os[\x27\"]", requireToks "os"),
   ("require\\s*\\(\\s*[\x27\"]http[\x27\"]", requireToks "http"),
   ("require\\s*\\(\\s*[\x27\"]https[\x27\"]", requireToks "https"),
   ("require\\s*\\(\\s*[\x27\"]net[\x27\"]", requireToks "net"),
   ("require\\s*\\(\\s*[\x27\"]child_process[\x27\"]", requireToks "child_process"),
   ("exec\\s*\\(", callToks "exec"),
   ("spawn\\s*\\(", callToks "spawn"),
   ("eval\\s*\\(", callToks "eval"),
   ("function\\s*\\(", callToks "function"),
   ("settimeout\\s*\\(", callToks "settimeout"),
   ("setinterval\\s*\\(", callToks "setinterval"),
   ("global\\.", lits "global."),
   ("process\\.", lits "process."),
   ("__dirname", lits "__dirname"),
   ("__filename", lits "__filename"),
   ("localStorage\\.clear", lits "localStorage.clear"),
   ("sessionStorage\\.clear", lits "sessionStorage.clear"),
   ("document\\.cookie\\s*=", assignToks "document.cookie"),
   ("window\\.location\\s*=", assignToks "window.location")]

/-- `ExecuteScriptSkill.validateScriptSecurity` (src/unnamed/part_008:192-241):
the script is lower-cased, each pattern is searched in order (a match
rejects with the pattern's source text in the message), and only then is
the 50000-character cap checked. -/
def validateScriptSecurity (script : String) : Except String Unit :=
  let scriptLower := strToLower script
  match dangerousPatterns.find? (fun p => searchToks p.2 scriptLower.data) with
  | some p => .error ("script contains potentially dangerous pattern: " ++ p.1)
  | none =>
    if script.length > 50000 then
      .error ("script too large: " ++ toString script.length ++ " characters (max 50000)")
    else .ok ()

/-- `ExecuteScriptSkill.prepareScript` (src/unnamed/part_008:244-259). -/
def prepareScript (script : String) (isAsync : Bool) : String :=
  if ¬ isAsync then script
  else
    "\n(async function() \x7b\n\ttry \x7b\n\t\t" ++ script ++
      "\n\t\x7d catch (error) \x7b\n\t\tthrow error;\n\t\x7d\n\x7d)()"

/-- One hex digit (lower case, as Go `%x`). -/
def hexDigit (n : Nat) : Char :=
  if n < 10 then Char.ofNat ('0'.toNat + n) else Char.ofNat ('a'.toNat + n - 10)

/-- Go `%x` of a byte string (the scripts are ASCII, so characters are bytes). -/
def hexOfString (s : String) : String :=
  String.mk (s.data.foldr (fun c acc => hexDigit (c.toNat / 16) :: hexDigit (c.toNat % 16) :: acc) [])

/-- `ExecuteScriptSkill.calculateScriptHash` (src/unnamed/part_008:262-267). -/
def calculateScriptHash (script : String) : String :=
  if script.length ≤ 32 then
    "script_" ++ toString script.length ++ "_chars"
  else
    "script_" ++ toString script.length ++ "_chars_" ++ hexOfString (String.mk (script.data.take 32))

/-- `ExecuteScriptSkill.getResultType` (src/unnamed/part_008:270-289).  The
Go `default: unknown:%T` branch is unreachable over the modelled value
universe. -/
def getResultType : GoVal → String
  | .nil => "null"
  | .bool _ => "boolean"
  | .int _ => "number"
  | .float _ => "number"
  | .str _ => "string"
  | .arr _ => "array"
  | .map _ => "object"

/-- The `ScriptExecutionResult` response of `execute_script`
(src/unnamed/part_008:23-34), with the `metadata` map flattened into the
fields it always carries.  The handler serialises this with `json.Marshal`
as its final step (not embedded; no claim inspects the serialised form). -/
structure ScriptExecutionResult where
  success : Bool
  result : GoVal
  resultType : String
  error : String
  executionMS : Int
  sessionID : String
  timestamp : String
  scriptHash : String
  message : String
  argsCount : Nat
  returnValue : Bool
  timeoutMs : Int
  isAsync : Bool
  scriptLength : Nat
  processed : Bool

/-- `ExecuteScriptSkill.ExecuteScriptHandler` (src/unnamed/part_008:81-189).
`executionMS` and `timestamp` stand for the measured elapsed time and
`time.Now().Format(RFC3339)`.  A driver failure still yields a marshalled
result (with `success = false`), mirroring the source. -/
def executeScriptHandler (pw : BrowserAutomation) (executionMS : Int) (timestamp : String)
    (args : List (String × GoVal)) :
    List DriverCall × Except String ScriptExecutionResult :=
  match lookupArg args "script" with
  | some (.str script) =>
    if script = "" then ([], .error "script parameter is required and must be a non-empty string")
    else
      match validateScriptSecurity script with
      | .error e => ([], .error ("script security validation failed: " ++ e))
      | .ok _ =>
        let scriptArgs : List GoVal :=
          match lookupArg args "args" with
          | some (.arr l) => l
          | _ => []
        let returnValue :=
          match lookupArg args "return_value" with
          | some (.bool rv) => rv
          | _ => true
        let timeout : Int :=
          match lookupArg args "timeout" with
          | some (.int t) => if t > 0 then t else 30000
          | some (.float tf) => if tf > 0 then tf else 30000
          | _ => 30000
        let isAsync :=
          match lookupArg args "async" with
          | some (.bool a) => a
          | _ => false
        let processedScript := prepareScript script isAsync
        match pw.getOrCreateTaskSession with
        | .error e => ([.getOrCreateTaskSession], .error ("failed to get browser session: " ++ e))
        | .ok session =>
          let execRes := pw.executeScript session.id processedScript
          let (result, errMsg) :=
            match execRes, returnValue with
            | .ok v, true => (v, none)
            | .ok _, false => (GoVal.nil, none)
            | .error e, _ => (GoVal.nil, some e)
          ([.getOrCreateTaskSession, .executeScript session.id processedScript],
           .ok
             { success := errMsg.isNone
               result := result
               resultType := getResultType result
               error := errMsg.getD ""
               executionMS := executionMS
               sessionID := session.id
               timestamp := timestamp
               scriptHash := calculateScriptHash script
               message := if errMsg.isNone then "Script executed successfully" else "Script execution failed"
               argsCount := scriptArgs.length
               returnValue := returnValue
               timeoutMs := timeout
               isAsync := isAsync
               scriptLength := script.length
               processed := processedScript ≠ script })
  | _ => ([], .error "script parameter is required and must be a non-empty string")

/-! ### `extract_data` (src/skills/extract_data.go)

The post-processing pipeline of `extract_data` parses the driver's raw
textual result.  Values produced by it (Go `any`) are modelled by `EDVal`.
A float64 produced by `strconv.ParseFloat` is carried as its source literal:
no claim inspects a float's numeric value, and this keeps the embedding
exact and total. -/

/-- A dynamically typed value inside an extraction result. -/
inductive EDVal where
  | str (s : String)
  | int (n : Int)
  | float (lit : String)
  | bool (b : Bool)
  | null
  | arr (xs : List EDVal)
  | obj (kvs : List (String × EDVal))

/-- Go-map insertion on an association list: replace the existing binding
for the key, else append (Go maps are unordered; insertion order is the
determinisation used throughout). -/
def upsertED (kvs : List (String × EDVal)) (k : String) (v : EDVal) : List (String × EDVal) :=
  if kvs.any (fun kv => kv.1 == k) then
    kvs.map (fun kv => if kv.1 == k then (k, v) else kv)
  else kvs ++ [(k, v)]

/-- Go `strconv.Atoi` (int64 range errors not modelled; the embedded inputs
are small). -/
def goAtoi (s : String) : Option Int :=
  match s.data with
  | [] => none
  | c :: rest =>
    let (neg, digits) :=
      if c == '-' then (true, rest) else if c == '+' then (false, rest) else (false, s.data)
    if digits.isEmpty || ¬ digits.all Char.isDigit then none
    else
      let n : Nat := digits.foldl (fun acc d => acc * 10 + (d.toNat - '0'.toNat)) 0
      some (if neg then -(n : Int) else (n : Int))

/-- Exponent part of a float literal: optional sign then at least one digit. -/
def expDigitsOk (e : List Char) : Bool :=
  let e' := match e with
    | c :: rest => if c == '+' || c == '-' then rest else e
    | [] => e
  ¬ e'.isEmpty && e'.all Char.isDigit

/-- Hexadecimal digit. -/
def isHexDigitChar (c : Char) : Bool :=
  c.isDigit || ('a' ≤ c && c ≤ 'f') || ('A' ≤ c && c ≤ 'F')

/-- Whether Go `strconv.ParseFloat(s, 64)` succeeds: optional sign; `inf`,
`infinity` or `nan` (case-insensitive); a hex mantissa with a mandatory
`p`-exponent; or a decimal mantissa with at least one digit and at most one
dot, with an optional `e`-exponent.  (Digit-group underscores and range
overflow are not modelled; no embedded input uses them.) -/
def goParseFloatOk (s : String) : Bool :=
  let l := match s.data with
    | c :: rest => if c == '+' || c == '-' then rest else s.data
    | [] => s.data
  let low := strToLower (String.mk l)
  if low == "inf" || low == "infinity" || low == "nan" then true
  else if strStarts low "0x" then
    let m := low.data.drop 2
    let mant := m.takeWhile (fun c => isHexDigitChar c || c == '.')
    let rest := m.drop mant.length
    mant.any isHexDigitChar && mant.count '.' ≤ 1 &&
      (match rest with
       | 'p' :: e => expDigitsOk e
       | _ => false)
  else
    let mant := l.takeWhile (fun c => c.isDigit || c == '.')
    let rest := l.drop mant.length
    mant.any Char.isDigit && mant.count '.' ≤ 1 &&
      (match rest with
       | [] => true
       | 'e' :: e => expDigitsOk e
       | 'E' :: e => expDigitsOk e
       | _ => false)

/-- Go `strconv.ParseBool`. -/
def goParseBool (s : String) : Option Bool :=
  if ["1", "t", "T", "TRUE", "true", "True"].contains s then some true
  else if ["0", "f", "F", "FALSE", "false", "False"].contains s then some false
  else none

/-! #### Go `encoding/json.Unmarshal` into `map[string]any`

`parseRawResult` first offers the raw string to `json.Unmarshal`; the model
below is a JSON parser producing `EDVal` (numbers decode to float64, hence
`.float`; duplicate object keys keep the last value, as for a Go map).
Unmarshalling into `map[string]any` succeeds exactly on a valid, complete
JSON document whose top-level value is an object.  UTF-16 surrogate pairs
in `\u` escapes are not modelled. -/

/-- JSON whitespace. -/
def jsonSkipWs (l : List Char) : List Char :=
  l.dropWhile (fun c => c == ' ' || c == '\t' || c == '\n' || c == '\r')

/-- Value of a hex digit. -/
def hexVal (c : Char) : Nat :=
  if c.isDigit then c.toNat - '0'.toNat
  else if 'a' ≤ c && c ≤ 'f' then c.toNat - 'a'.toNat + 10
  else c.toNat - 'A'.toNat + 10

/-- Scan a JSON string body (after the opening quote). -/
def jsonStringAux : Nat → List Char → List Char → Option (String × List Char)
  | 0, _, _ => none
  | fuel + 1, acc, l =>
    match l with
    | [] => none
    | '"' :: rest => some (String.mk acc.reverse, rest)
    | '\\' :: esc :: rest =>
      match esc with
      | '"' => jsonStringAux fuel ('"' :: acc) rest
      | '\\' => jsonStringAux fuel ('\\' :: acc) rest
      | '/' => jsonStringAux fuel ('/' :: acc) rest
      | 'b' => jsonStringAux fuel ('\x08' :: acc) rest
      | 'f' => jsonStringAux fuel ('\x0c' :: acc) rest
      | 'n' => jsonStringAux fuel ('\n' :: acc) rest
      | 'r' => jsonStringAux fuel ('\r' :: acc) rest
      | 't' => jsonStringAux fuel ('\t' :: acc) rest
      | 'u' =>
        match rest with
        | a :: b :: c :: d :: rest2 =>
          if [a, b, c, d].all isHexDigitChar then
            jsonStringAux fuel
              (Char.ofNat (((hexVal a * 16 + hexVal b) * 16 + hexVal c) * 16 + hexVal d) :: acc) rest2
          else none
        | _ => none
      | _ => none
    | c :: rest => if c.toNat < 0x20 then none else jsonStringAux fuel (c :: acc) rest

/-- JSON number grammar after the exponent marker. -/
def jsonExpOk : List Char → Bool
  | [] => true
  | 'e' :: r => expDigitsOk r
  | 'E' :: r => expDigitsOk r
  | _ => false

/-- JSON number grammar after the integer part. -/
def jsonFracExpOk : List Char → Bool
  | '.' :: r =>
    let ds := r.takeWhile Char.isDigit
    ¬ ds.isEmpty && jsonExpOk (r.drop ds.length)
  | l => jsonExpOk l

/-- The JSON number grammar `-?(0|[1-9][0-9]*)(\.[0-9]+)?([eE][+-]?[0-9]+)?`. -/
def jsonNumOk (l : List Char) : Bool :=
  let l' := match l with
    | '-' :: r => r
    | _ => l
  match l' with
  | [] => false
  | '0' :: r => jsonFracExpOk r
  | c :: _ => c.isDigit && jsonFracExpOk (l'.dropWhile Char.isDigit)

mutual

/-- Parse one JSON value. -/
def jsonVal : Nat → List Char → Option (EDVal × List Char)
  | 0, _ => none
  | fuel + 1, l =>
    match jsonSkipWs l with
    | [] => none
    | '{' :: rest =>
      match jsonSkipWs rest with
      | '}' :: rest2 => some (.obj [], rest2)
      | _ => jsonMembers fuel rest []
    | '[' :: rest =>
      match jsonSkipWs rest with
      | ']' :: rest2 => some (.arr [], rest2)
      | _ => jsonElems fuel rest []
    | '"' :: rest => (jsonStringAux (rest.length + 1) [] rest).map (fun p => (EDVal.str p.1, p.2))
    | l2 =>
      if leadsChars "true".data l2 then some (.bool true, l2.drop 4)
      else if leadsChars "false".data l2 then some (.bool false, l2.drop 5)
      else if leadsChars "null".data l2 then some (.null, l2.drop 4)
      else
        let num := l2.takeWhile (fun c =>
          c.isDigit || c == '-' || c == '+' || c == '.' || c == 'e' || c == 'E')
        if num.isEmpty then none
        else if jsonNumOk num then some (.float (String.mk num), l2.drop num.length)
        else none

/-- Parse the members of a JSON object (after a `{` with a non-`}` ahead). -/
def jsonMembers : Nat → List Char → List (String × EDVal) → Option (EDVal × List Char)
  | 0, _, _ => none
  | fuel + 1, l, acc =>
    match jsonSkipWs l with
    | '"' :: rest =>
      match jsonStringAux (rest.length + 1) [] rest with
      | none => none
      | some (key, rest2) =>
        match jsonSkipWs rest2 with
        | ':' :: rest3 =>
          match jsonVal fuel rest3 with
          | none => none
          | some (v, rest4) =>
            let acc2 := upsertED acc key v
            match jsonSkipWs rest4 with
            | ',' :: rest5 => jsonMembers fuel rest5 acc2
            | '}' :: rest5 => some (.obj acc2, rest5)
            | _ => none
        | _ => none
    | _ => none

/-- Parse the elements of a JSON array (after a `[` with a non-`]` ahead). -/
def jsonElems : Nat → List Char → List EDVal → Option (EDVal × List Char)
  | 0, _, _ => none
  | fuel + 1, l, acc =>
    match jsonVal fuel l with
    | none => none
    | some (v, rest) =>
      match jsonSkipWs rest with
      | ',' :: rest2 => jsonElems fuel rest2 (acc ++ [v])
      | ']' :: rest2 => some (.arr (acc ++ [v]), rest2)
      | _ => none

end

/-- `json.Unmarshal(raw, &map[string]any{...})`: succeeds exactly on a
complete JSON document whose value is an object. -/
def goJsonUnmarshalMap (s : String) : Option (List (String × EDVal)) :=
  match jsonVal (s.length + 1) s.data with
  | some (.obj kvs, rest) => if (jsonSkipWs rest).isEmpty then some kvs else none
  | _ => none

/-- Skip `' '` characters from index `i` (the first loop of
`ExtractDataSkill.isNextKeyStart`, src/skills/extract_data.go:365-367).
Fueled; callers pass enough fuel for the whole array. -/
def skipSpacesFrom (arr : Array Char) : Nat → Nat → Nat
  | 0, i => i
  | fuel + 1, i =>
    if i < arr.size && arr[i]! == ' ' then skipSpacesFrom arr fuel (i + 1) else i

/-- Scan a word from index `i`: advance while the character is none of
`' '`, `':'`, `'['`, `']'` (the second loop of `isNextKeyStart`,
src/skills/extract_data.go:374-377). -/
def scanWordFrom (arr : Array Char) : Nat → Nat → Nat
  | 0, i => i
  | fuel + 1, i =>
    if i < arr.size && arr[i]! ≠ ' ' && arr[i]! ≠ ':' && arr[i]! ≠ '[' && arr[i]! ≠ ']' then
      scanWordFrom arr fuel (i + 1)
    else i

/-- `ExtractDataSkill.isNextKeyStart` (src/skills/extract_data.go:364-380):
after the space at `currentPos`, do the next non-space characters form a
word immediately followed by `':'`? -/
def isNextKeyStart (arr : Array Char) (currentPos : Nat) : Bool :=
  let wordStart := skipSpacesFrom arr (arr.size + 1) (currentPos + 1)
  if wordStart ≥ arr.size then false
  else
    let i := scanWordFrom arr (arr.size + 1) wordStart
    i > wordStart && i < arr.size && arr[i]! == ':'

/-- The loop state of `ExtractDataSkill.smartSplit`
(src/skills/extract_data.go:307-361). -/
structure SplitState where
  parts : List String
  current : List Char
  inBrackets : Int
  inQuotes : Bool
  foundKey : Bool

/-- One iteration of the `smartSplit` loop, at character index `i`. -/
def smartSplitStep (arr : Array Char) (st : SplitState) (i : Nat) : SplitState :=
  let char := arr[i]!
  if char == '[' then
    { st with inBrackets := st.inBrackets + 1, current := st.current ++ [char] }
  else if char == ']' then
    { st with inBrackets := st.inBrackets - 1, current := st.current ++ [char] }
  else if char == '"' || char == '\x27' then
    { st with inQuotes := ¬ st.inQuotes, current := st.current ++ [char] }
  else if char == ':' then
    if st.inBrackets == 0 && ¬ st.inQuotes && ¬ st.foundKey then
      { st with foundKey := true, current := st.current ++ [char] }
    else
      { st with current := st.current ++ [char] }
  else if char == ' ' then
    if st.inBrackets == 0 && ¬ st.inQuotes && st.foundKey then
      if isNextKeyStart arr i then
        if st.current.length > 0 then
          { st with parts := st.parts ++ [String.mk st.current], current := [], foundKey := false }
        else st
      else
        { st with current := st.current ++ [char] }
    else if st.inBrackets == 0 && ¬ st.inQuotes && ¬ st.foundKey then
      if st.current.length > 0 then
        { st with parts := st.parts ++ [String.mk st.current], current := [] }
      else st
    else
      { st with current := st.current ++ [char] }
  else
    { st with current := st.current ++ [char] }

/-- `ExtractDataSkill.smartSplit` (src/skills/extract_data.go:307-361). -/
def smartSplit (content : String) : List String :=
  let arr := content.data.toArray
  let st := (List.range arr.size).foldl (smartSplitStep arr) ⟨[], [], 0, false, false⟩
  if st.current.length > 0 then st.parts ++ [String.mk st.current] else st.parts

/-- Split a character list at every separator character (keeping empty
pieces), accumulating the current piece. -/
def splitCharsAux (p : Char → Bool) : List Char → List Char → List String
  | [], acc => [String.mk acc.reverse]
  | c :: rest, acc =>
    if p c then String.mk acc.reverse :: splitCharsAux p rest []
    else splitCharsAux p rest (c :: acc)

/-- Split a character list at separator characters. -/
def splitChars (l : List Char) (p : Char → Bool) : List String :=
  splitCharsAux p l []

/-- Go `strings.Fields`: split around runs of whitespace. -/
def goFields (s : String) : List String :=
  (splitChars s.data isGoSpace).filter (· ≠ "")

/-- `ExtractDataSkill.parseScalarValue` (src/skills/extract_data.go:404-427).
As for selectors, the Go `value[1 : len(value)-1]` of the quote branch
panics on a one-character quote; the model returns the empty string there
(no input reaches it). -/
def parseScalarValue (value : String) : EDVal :=
  if (strStarts value "\"" && strEnds value "\"") ||
      (strStarts value "\x27" && strEnds value "\x27") then
    .str (String.mk (value.data.drop 1).dropLast)
  else
    match goAtoi value with
    | some n => .int n
    | none =>
      if goParseFloatOk value then .float value
      else
        match goParseBool value with
        | some b => .bool b
        | none => if value == "<nil>" || value == "null" then .null else .str value

/-- `ExtractDataSkill.parseValue` (src/skills/extract_data.go:383-401). -/
def parseValue (value : String) : EDVal :=
  if strStarts value "[" && strEnds value "]" then
    let arrayContent := String.mk (value.data.drop 1).dropLast
    if arrayContent = "" then .arr []
    else .arr ((goFields arrayContent).map parseScalarValue)
  else parseScalarValue value

/-- `ExtractDataSkill.parseGoMapFormat` (src/skills/extract_data.go:279-304). -/
def parseGoMapFormat (mapStr : String) : List (String × EDVal) :=
  let content0 := if strStarts mapStr "map[" then String.mk (mapStr.data.drop 4) else mapStr
  let content := if strEnds content0 "]" then String.mk content0.data.dropLast else content0
  if content = "" then []
  else
    (smartSplit content).foldl
      (fun data part =>
        if containsSubstr part ":" then
          let (key0, value0) := cutAt ':' part
          upsertED data (goTrimSpace key0) (parseValue (goTrimSpace value0))
        else data)
      []

/-- Word character of Go regexp `\w`: `[0-9A-Za-z_]`. -/
def isWordChar (c : Char) : Bool :=
  c.isDigit || ('a' ≤ c && c ≤ 'z') || ('A' ≤ c && c ≤ 'Z') || c == '_'

/-- One scan step of `ExtractDataSkill.extractDataFromString`
(src/skills/extract_data.go:430-445), which collects the non-overlapping
matches of `(\w+):\s*([^\n]+)`: a word followed by `:`, whitespace skipped
greedily, then a non-empty run up to the newline.  (Backtracking of the
greedy `\s*` into `[^\n]+` is not modelled; no claim exercises this
fallback.) -/
def extractDataFromStringAux : Nat → List Char → List (String × EDVal) → List (String × EDVal)
  | 0, _, data => data
  | _ + 1, [], data => data
  | fuel + 1, l@(_ :: tl), data =>
    let word := l.takeWhile isWordChar
    match word, l.drop word.length with
    | _ :: _, ':' :: afterColon =>
      let afterWs := afterColon.dropWhile isGoRegexSpace
      let value := afterWs.takeWhile (· ≠ '\n')
      match value with
      | [] => extractDataFromStringAux fuel tl data
      | _ :: _ =>
        extractDataFromStringAux fuel (afterWs.drop value.length)
          (upsertED data (goTrimSpace (String.mk word)) (.str (goTrimSpace (String.mk value))))
    | _, _ => extractDataFromStringAux fuel tl data

/-- `ExtractDataSkill.extractDataFromString` (src/skills/extract_data.go:430-445). -/
def extractDataFromString (result : String) : List (String × EDVal) :=
  extractDataFromStringAux (result.length + 1) result.data []

/-- `ExtractDataSkill.parseRawResult` (src/skills/extract_data.go:263-276):
canonical JSON first, then the legacy Go-map format, then the regex
fallback.  None of the branches can fail. -/
def parseRawResult (rawResult : String) : Except String (List (String × EDVal)) :=
  match goJsonUnmarshalMap rawResult with
  | some m => .ok m
  | none =>
    if strStarts rawResult "map[" && strEnds rawResult "]" then
      .ok (parseGoMapFormat rawResult)
    else
      .ok (extractDataFromString rawResult)

/-- Collapse runs of Go-regexp whitespace (`\s+`) to a single space; the
flag records whether the previous character was part of a run. -/
def collapseWsAux : List Char → Bool → List Char
  | [], _ => []
  | c :: rest, prevSpace =>
    if isGoRegexSpace c then
      if prevSpace then collapseWsAux rest true
      else ' ' :: collapseWsAux rest true
    else c :: collapseWsAux rest false

/-- The control characters removed by `cleanString`:
`[\x00-\x08\x0B\x0C\x0E-\x1F\x7F]`. -/
def isCleanedCtl (c : Char) : Bool :=
  c.toNat ≤ 0x08 || c.toNat == 0x0b || c.toNat == 0x0c ||
    (0x0e ≤ c.toNat && c.toNat ≤ 0x1f) || c.toNat == 0x7f

/-- `ExtractDataSkill.cleanString` (src/skills/extract_data.go:505-515):
trim, collapse `\s+` to a single space, remove control characters. -/
def cleanString (text : String) : String :=
  String.mk ((collapseWsAux (goTrimSpace text).data false).filter (fun c => ¬ isCleanedCtl c))

mutual

/-- `ExtractDataSkill.cleanAndNormalizeData` (src/skills/extract_data.go:483-502):
clean every string in a nested value. -/
def cleanAndNormalizeData : EDVal → EDVal
  | .obj kvs => .obj (cleanKVs kvs)
  | .arr xs => .arr (cleanList xs)
  | .str s => .str (cleanString s)
  | v => v

/-- `cleanAndNormalizeData` over a list of values. -/
def cleanList : List EDVal → List EDVal
  | [] => []
  | x :: xs => cleanAndNormalizeData x :: cleanList xs

/-- `cleanAndNormalizeData` over the entries of a map. -/
def cleanKVs : List (String × EDVal) → List (String × EDVal)
  | [] => []
  | (k, v) :: xs => (k, cleanAndNormalizeData v) :: cleanKVs xs

end

/-- `ExtractDataSkill.formatAsJSON` (src/skills/extract_data.go:173-199),
up to the final `json.MarshalIndent` (not embedded; the claim compares the
`data` object and `metadata.total_fields`, both formed here).  `now` stands
for `time.Now().Unix()`.  The source computes `total_fields` from the
parsed (uncleaned) data and then replaces `data` by its cleaned form; the
construction below does the same, `cleanAndNormalizeData` being
length-preserving on maps. -/
def formatAsJSON (rawResult : String) (extractors : List GoVal) (now : Int) :
    Except String (List (String × EDVal)) :=
  match parseRawResult rawResult with
  | .error e => .error e
  | .ok parsedData =>
    .ok [("success", .bool true),
         ("format", .str "json"),
         ("extractors", .int extractors.length),
         ("data", cleanAndNormalizeData (.obj parsedData)),
         ("metadata", .obj [("extraction_time", .int now),
                            ("total_fields", .int parsedData.length)])]

/-- `ExtractDataSkill.isValidFormat` (src/skills/extract_data.go:107-115). -/
def isValidFormat (format : String) : Bool :=
  ["json", "csv", "text"].contains format

/-- `ExtractDataSkill.getOrCreateSession` (src/skills/extract_data.go:518-520):
returns the shared default session. -/
def ExtractDataSkill.getOrCreateSession (pw : BrowserAutomation) : Except String BrowserSession :=
  pw.getOrCreateDefaultSession

/-- `FillFormSkill.getOrCreateSession` (src/skills/fill_form.go:329-331):
returns the shared default session. -/
def FillFormSkill.getOrCreateSession (pw : BrowserAutomation) : Except String BrowserSession :=
  pw.getOrCreateDefaultSession

/-- `TakeScreenshotSkill.getOrCreateSession` (src/skills/take_screenshot.go:586-588):
returns the shared default session. -/
def TakeScreenshotSkill.getOrCreateSession (pw : BrowserAutomation) : Except String BrowserSession :=
  pw.getOrCreateDefaultSession

/-- `NavigateToURLSkill.getOrCreateSession` (src/skills/navigate_to_url.go:161-163):
returns a task-scoped session. -/
def NavigateToURLSkill.getOrCreateSession (pw : BrowserAutomation) : Except String BrowserSession :=
  pw.getOrCreateTaskSession

/-- `ExecuteScriptSkill.getOrCreateSession` (src/unnamed/part_008:292-294):
returns a task-scoped session. -/
def ExecuteScriptSkill.getOrCreateSession (pw : BrowserAutomation) : Except String BrowserSession :=
  pw.getOrCreateTaskSession

/-- `ExtractDataSkill.convertExtractors` (src/skills/extract_data.go:118-156),
with `i` the index of the first remaining extractor.  An extractor is
reduced to its `(name, selector, attribute, multiple)` quadruple. -/
def convertExtractorsAux : Nat → List GoVal → Except String (List (String × String × String × Bool))
  | _, [] => .ok []
  | i, e :: rest =>
    match e with
    | .map em =>
      let nameOpt := match lookupArg em "name" with
        | some (.str n) => if n = "" then none else some n
        | _ => none
      match nameOpt with
      | none => .error ("extractor at index " ++ toString i ++ " must have a non-empty \x27name\x27 field")
      | some name =>
        let selOpt := match lookupArg em "selector" with
          | some (.str s) => if s = "" then none else some s
          | _ => none
        match selOpt with
        | none => .error ("extractor at index " ++ toString i ++ " must have a non-empty \x27selector\x27 field")
        | some sel =>
          let attributeVal := match lookupArg em "attribute" with
            | some (.str a) => if a ≠ "" then a else "text"
            | _ => "text"
          let multiple := match lookupArg em "multiple" with
            | some (.bool m) => m
            | _ => false
          match convertExtractorsAux (i + 1) rest with
          | .error e2 => .error e2
          | .ok tl => .ok ((name, sel, attributeVal, multiple) :: tl)
    | _ => .error ("extractor at index " ++ toString i ++ " must be an object")

/-- `ExtractDataSkill.convertExtractors` from index 0. -/
def convertExtractors (extractors : List GoVal) : Except String (List (String × String × String × Bool)) :=
  convertExtractorsAux 0 extractors

/-- `ExtractDataSkill.ExtractDataHandler` (src/skills/extract_data.go:54-104)
up to and including the driver's `ExtractData` call, which yields the raw
result string.  The subsequent post-processing (`processExtractedData`) is
embedded as `formatAsJSON` for the `json` format.  The session comes from
`ExtractDataSkill.getOrCreateSession` — the shared default session. -/
def extractDataHandlerToDriver (pw : BrowserAutomation) (args : List (String × GoVal)) :
    List DriverCall × Except String String :=
  match lookupArg args "extractors" with
  | some (.arr extractors) =>
    if extractors.isEmpty then
      ([], .error "extractors parameter is required and must be a non-empty array")
    else
      let formatCheck : Except String String :=
        match lookupArg args "format" with
        | some (.str f) =>
          if f ≠ "" then
            if ¬ isValidFormat f then .error ("invalid format: " ++ f ++ ". Must be one of: json, csv, text")
            else .ok f
          else .ok "json"
        | _ => .ok "json"
      match formatCheck with
      | .error e => ([], .error e)
      | .ok _format =>
        match ExtractDataSkill.getOrCreateSession pw with
        | .error e => ([.getOrCreateDefaultSession], .error ("failed to get browser session: " ++ e))
        | .ok session =>
          match convertExtractors extractors with
          | .error e => ([.getOrCreateDefaultSession], .error ("failed to convert extractors: " ++ e))
          | .ok _converted =>
            match pw.extractData session.id with
            | .error e =>
              ([.getOrCreateDefaultSession, .extractData session.id],
               .error ("data extraction failed: " ++ e))
            | .ok raw => ([.getOrCreateDefaultSession, .extractData session.id], .ok raw)
  | _ => ([], .error "extractors parameter is required and must be a non-empty array")

/-! ### `take_screenshot` (src/skills/take_screenshot.go:78-354, the revision
cited by the claims for parameter validation) -/

/-- `TakeScreenshotSkill.isValidImageType` (src/skills/take_screenshot.go:285-293). -/
def isValidImageType (imageType : String) : Bool :=
  ["png", "jpeg"].contains imageType

/-- Go `path/filepath.Base` (for the slash-separated selectors and paths in
scope; `Clean`'s dot-segment handling is not modelled). -/
def goFilepathBase (s : String) : String :=
  if s = "" then "."
  else
    let l := s.data.reverse.dropWhile (· == '/')
    if l.isEmpty then "/"
    else String.mk ((l.takeWhile (· ≠ '/')).reverse)

/-- Go `path/filepath.Join` of two already-clean components. -/
def goFilepathJoin (a b : String) : String :=
  if a = "" then b else a ++ "/" ++ b

/-- The `quality` extraction of `TakeScreenshotHandler`
(src/skills/take_screenshot.go:155-160): an `int`, else a `float64`, else
the default 80.  No range check happens at extraction. -/
def screenshotQuality (args : List (String × GoVal)) : Int :=
  match lookupArg args "quality" with
  | some (.int q) => q
  | some (.float qf) => qf
  | _ => 80

/-- `TakeScreenshotSkill.generateDeterministicPath`
(src/skills/take_screenshot.go:255-282).  `mkdirResult` stands for
`os.MkdirAll(screenshotDir, 0755)` and `timestamp` for
`time.Now().Format("2006-01-02_15-04-05.000")`. -/
def generateDeterministicPath (mkdirResult : Except String Unit)
    (screenshotDir timestamp : String) (args : List (String × GoVal)) :
    Except String String :=
  match mkdirResult with
  | .error e => .error ("failed to create screenshots directory: " ++ e)
  | .ok _ =>
    let imageType := match lookupArg args "type" with
      | some (.str t) => if t ≠ "" then t else "png"
      | _ => "png"
    let filename :=
      if (lookupArg args "full_page").bind GoVal.asBool = some true then
        "fullpage_" ++ timestamp ++ "." ++ imageType
      else
        match lookupArg args "selector" with
        | some (.str sel) =>
          if sel ≠ "" then
            let safeSelector0 := goFilepathBase sel
            let safeSelector :=
              if safeSelector0.length > 20 then String.mk (safeSelector0.data.take 20) else safeSelector0
            "element_" ++ safeSelector ++ "_" ++ timestamp ++ "." ++ imageType
          else "viewport_" ++ timestamp ++ "." ++ imageType
        | _ => "viewport_" ++ timestamp ++ "." ++ imageType
    .ok (goFilepathJoin screenshotDir filename)

/-- `TakeScreenshotSkill.TakeScreenshotHandler`
(src/skills/take_screenshot.go:142-252).  `artifactCreate` stands for
`createArtifactFromScreenshot` (filesystem read plus the external artifact
service), returning `(download url, artifact id)`; on its failure the
handler still succeeds with a degraded response.  `rfc3339` stands for
`getCurrentTimestamp()`.  The final `json.Marshal` of the response map is
not embedded; the handler yields the response map itself. -/
def takeScreenshotHandler (mkdirResult : Except String Unit)
    (screenshotDir timestamp rfc3339 : String) (pw : BrowserAutomation)
    (artifactCreate : Except String (String × String)) (args : List (String × GoVal)) :
    List DriverCall × Except String (List (String × GoVal)) :=
  match generateDeterministicPath mkdirResult screenshotDir timestamp args with
  | .error e => ([], .error ("failed to generate screenshot path: " ++ e))
  | .ok generatedPath =>
    let fullPage := match lookupArg args "full_page" with
      | some (.bool fp) => fp
      | _ => false
    let quality := screenshotQuality args
    let imageTypeCheck : Except String String :=
      match lookupArg args "type" with
      | some (.str t) =>
        if t ≠ "" then
          if ¬ isValidImageType t then
            .error ("invalid image type: " ++ t ++ ". Must be \x27png\x27 or \x27jpeg\x27")
          else .ok t
        else .ok "png"
      | _ => .ok "png"
    match imageTypeCheck with
    | .error e => ([], .error e)
    | .ok imageType =>
      if imageType = "jpeg" && (quality < 0 || quality > 100) then
        ([], .error ("quality must be between 0 and 100 for JPEG images, got " ++ toString quality))
      else
        let selector := match lookupArg args "selector" with
          | some (.str s) => s
          | _ => ""
        match pw.getOrCreateTaskSession with
        | .error e => ([.getOrCreateTaskSession], .error ("failed to get browser session: " ++ e))
        | .ok session =>
          match pw.takeScreenshot session.id generatedPath fullPage selector imageType quality with
          | .error e =>
            ([.getOrCreateTaskSession,
              .takeScreenshot session.id generatedPath fullPage selector imageType quality],
             .error ("screenshot failed: " ++ e))
          | .ok _ =>
            let base :=
              [("success", GoVal.bool true),
               ("path", GoVal.str generatedPath),
               ("filename", GoVal.str (goFilepathBase generatedPath)),
               ("full_page", GoVal.bool fullPage),
               ("type", GoVal.str imageType),
               ("quality", GoVal.int quality),
               ("selector", GoVal.str selector),
               ("session_id", GoVal.str session.id),
               ("timestamp", GoVal.str rfc3339)]
            let response :=
              match artifactCreate with
              | .error _ =>
                base ++
                  [("message", GoVal.str ("Screenshot captured successfully and saved to " ++ generatedPath))]
              | .ok (url, artifactID) =>
                base ++
                  [("artifact_id", GoVal.str artifactID),
                   ("url", GoVal.str url),
                   ("message", GoVal.str ("Screenshot captured successfully. Download URL: " ++ url))]
            ([.getOrCreateTaskSession,
              .takeScreenshot session.id generatedPath fullPage selector imageType quality],
             .ok response)

/-! ### Artifact registry and runtime artifacts (src/internal/artifacts) -/

/-- `artifacts.ArtifactEntry` (src/internal/artifacts/server.go:34-44). -/
structure ArtifactEntry where
  id : String
  filePath : String
  fileName : String
  mimeType : String
  size : Int
  createdAt : Int
  metadata : List (String × GoVal)
  title : String
  description : String

/-- The registry mapping (`ArtifactRegistry.artifacts`, a Go map guarded by
a reader-writer lock).  The map is modelled by its observable behaviour:
assignment prepends, lookup returns the most recent binding. -/
abbrev ArtifactMap := List ArtifactEntry

/-- `ArtifactRegistry.RegisterArtifact` (src/internal/artifacts/server.go:64-68):
`r.artifacts[entry.ID] = entry`.  Total — it can neither fail nor reject a
duplicate identifier. -/
def RegisterArtifact (r : ArtifactMap) (entry : ArtifactEntry) : ArtifactMap :=
  entry :: r

/-- `ArtifactRegistry.GetArtifact` (src/internal/artifacts/server.go:71-76). -/
def GetArtifact (r : ArtifactMap) (id : String) : Option ArtifactEntry :=
  r.find? (fun e => e.id == id)

/-- `EnhancedArtifactHelper.CreateFileArtifactFromBytesWithRegistry`
(src/internal/artifacts/helper.go:87-144).  `artifactID` is the identifier
minted by the ADK `CreateFileArtifactFromBytes`; `mkdirOk`/`writeOk` stand
for `os.MkdirAll`/`os.WriteFile` on the runtime path; `now` stands for
`time.Now()`.  On a filesystem failure the artifact is still returned but
no registry entry is created.  The runtime path root is the hard-coded
string `/tmp/artifacts/runtime` — it is not derived from the configured
data directory. -/
def CreateFileArtifactFromBytesWithRegistry (mkdirOk writeOk : Bool)
    (registry : ArtifactMap) (artifactID title description filename : String)
    (dataLen : Nat) (mimeType : Option String)
    (metadata : List (String × GoVal)) (now : Int) :
    ArtifactMap × Option ArtifactEntry :=
  let artifactPath := goFilepathJoin (goFilepathJoin "/tmp/artifacts/runtime" artifactID) filename
  if ¬ mkdirOk then (registry, none)
  else if ¬ writeOk then (registry, none)
  else
    let resolvedMimeType := mimeType.getD "application/octet-stream"
    let entry : ArtifactEntry :=
      { id := artifactID, filePath := artifactPath, fileName := filename,
        mimeType := resolvedMimeType, size := dataLen, createdAt := now,
        metadata := metadata, title := title, description := description }
    (RegisterArtifact registry entry, some entry)

/-! ### Concrete oracles for witnesses and counterexamples -/

/-- A driver oracle on which every operation succeeds; the task-scoped
session is `task_ab`, the shared default session is `default`. -/
def pwOk : BrowserAutomation where
  getOrCreateTaskSession := .ok ⟨"task_ab", true⟩
  getOrCreateDefaultSession := .ok ⟨"default", true⟩
  getSession := fun sid => .ok ⟨sid, true⟩
  navigateToURL := fun _ _ _ _ => .ok ()
  waitForCondition := fun _ _ _ _ _ => .ok ()
  clickElement := fun _ _ => .ok ()
  fillForm := fun _ => .ok ()
  takeScreenshot := fun _ _ _ _ _ _ => .ok ()
  executeScript := fun _ _ => .ok .nil
  extractData := fun _ => .ok "map[]"
  iframeCount := fun _ => .ok 0

/-- Like `pwOk`, but the visibility wait fails and the page reports `n`
iframes. -/
def pwWaitFails (n : Int) : BrowserAutomation :=
  { pwOk with
    waitForCondition := fun _ _ _ _ _ => .error "timeout"
    iframeCount := fun _ => .ok n }

/-- A concrete artifact entry under identifier `a1`. -/
def sampleEntry1 : ArtifactEntry :=
  { id := "a1", filePath := "/tmp/artifacts/one.png", fileName := "one.png",
    mimeType := "image/png", size := 10, createdAt := 0, metadata := [],
    title := "one", description := "first" }

/-- A different concrete artifact entry reusing identifier `a1`. -/
def sampleEntry2 : ArtifactEntry :=
  { id := "a1", filePath := "/tmp/artifacts/two.png", fileName := "two.png",
    mimeType := "image/png", size := 20, createdAt := 1, metadata := [],
    title := "two", description := "second" }

/-!
## Theorems

Helper lemmas first, then one theorem per claim (with a witness where the
claim's theorem carries hypotheses).
-/

/-- A string with a non-empty left part is non-empty. -/
theorem string_append_ne_empty_left (a b : String) (h : a ≠ "") : a ++ b ≠ "" := by
  intro hab
  apply h
  have h2 := congrArg String.data hab
  rw [String.data_append] at h2
  exact String.ext (List.append_eq_nil.mp h2).1

/-- C1: the claim states that every skill handler obtains its session from
`GetOrCreateTaskSession` and never from the shared default-session path.
The code contradicts it (and the repository's own SESSION_MANAGEMENT.md,
which lists all skills as migrated): `fill_form`, `extract_data` and
`take_screenshot` route their `getOrCreateSession` through
`GetOrCreateDefaultSession`, and `extract_data`'s handler passes the
default session's identifier to the driver's `ExtractData`. -/
theorem c1_three_skills_use_default_session :
    extractDataHandlerToDriver pwOk
        [("extractors", .arr [.map [("name", .str "title"), ("selector", .str "h1")]])] =
      ([.getOrCreateDefaultSession, .extractData "default"], .ok "map[]") ∧
    FillFormSkill.getOrCreateSession pwOk = .ok ⟨"default", true⟩ ∧
    ExtractDataSkill.getOrCreateSession pwOk = .ok ⟨"default", true⟩ ∧
    TakeScreenshotSkill.getOrCreateSession pwOk = .ok ⟨"default", true⟩ ∧
    pwOk.getOrCreateTaskSession = .ok ⟨"task_ab", true⟩ ∧
    FillFormSkill.getOrCreateSession pwOk ≠ pwOk.getOrCreateTaskSession :=
  ⟨rfl, rfl, rfl, rfl, rfl, by simp [FillFormSkill.getOrCreateSession, pwOk]⟩

/-- C2: the claim states that every successful skill response is serialised
as JSON.  The code contradicts it (as §9 of the spec itself notes): a
successful `navigate_to_url` — and likewise `click_element` — returns
`fmt.Sprintf("%+v", response)`, a Go map rendering that starts with `map[`,
not the `{`-led JSON serialisation of an object. -/
theorem c2_navigate_click_responses_not_json :
    (navigateToURLHandler pwOk [("url", .str "https://example.com")]).2 =
      .ok "map[message:Navigation completed successfully session_id:task_ab success:true timeout_ms:30000 url:https://example.com wait_until:load]" ∧
    (clickElementHandler pwOk [("selector", .str "#btn")]).2 =
      .ok "map[button:left click_count:1 force:false message:Element clicked successfully selector:#btn selector_type:css session_id:task_ab success:true timeout_ms:30000]" ∧
    strStarts "map[message:Navigation completed successfully session_id:task_ab success:true timeout_ms:30000 url:https://example.com wait_until:load]" "map[" = true ∧
    strStarts "map[message:Navigation completed successfully session_id:task_ab success:true timeout_ms:30000 url:https://example.com wait_until:load]" "\x7b" = false :=
  ⟨rfl, rfl, by decide, by decide⟩

/-- C3: the claim states that the deny-list patterns — including the
destructive storage clears — match case-insensitively.  The code
contradicts it: `validateScriptSecurity` lower-cases the script but the
patterns `localStorage\.clear` and `sessionStorage\.clear` contain
upper-case letters, so they can never match; such scripts pass validation
and reach the driver's `ExecuteScript`.  The other deny-list entries and
the length cap behave as claimed. -/
theorem c3_storage_clear_patterns_never_match :
    validateScriptSecurity "localStorage.clear();" = .ok () ∧
    validateScriptSecurity "sessionStorage.clear();" = .ok () ∧
    (executeScriptHandler pwOk 5 "2025-10-11T00:00:00Z"
        [("script", .str "localStorage.clear();")]).1 =
      [.getOrCreateTaskSession, .executeScript "task_ab" "localStorage.clear();"] ∧
    validateScriptSecurity "eval(\x27x\x27)" =
      .error "script contains potentially dangerous pattern: eval\\s*\\(" ∧
    validateScriptSecurity "require(\x27fs\x27).readFileSync(\x27/etc/passwd\x27);" =
      .error "script contains potentially dangerous pattern: require\\s*\\(\\s*[\x27\"]fs[\x27\"]" :=
  ⟨rfl, rfl, rfl, rfl, rfl⟩

/-- C4: the claim states that with `force = true` a failed visibility wait
still leads to the driver `Click`.  The code contradicts it (and its own
schema text "Force click even if element is not visible"): after a failed
wait the handler always returns `element not actionable` — `force` is never
consulted — so no `ClickElement` driver call is recorded.  The
iframe-mention on the `force = false` path behaves as claimed. -/
theorem c4_force_never_reaches_click :
    (clickElementHandler (pwWaitFails 0) [("selector", .str "#btn"), ("force", .bool true)]).2 =
      .error "element not actionable: element not found: #btn" ∧
    ((clickElementHandler (pwWaitFails 0) [("selector", .str "#btn"), ("force", .bool true)]).1.filter
        DriverCall.isClick) = [] ∧
    (clickElementHandler (pwWaitFails 2) [("selector", .str "#btn")]).2 =
      .error "element not actionable: element not found in main frame, 2 iframes detected but cross-frame clicking not yet implemented" :=
  ⟨rfl, rfl, rfl⟩

/-- C5 counterexample: a `navigate_to_url` invocation whose `timeout` is
present with the wrong kind (a string) does not fail — the claim demands a
structured invalid-parameter error — but silently runs with the declared
default 30000. -/
theorem c5_wrong_kind_timeout_not_rejected :
    navigateToURLHandler pwOk [("url", .str "https://example.com"), ("timeout", .str "soon")] =
      ([.getOrCreateTaskSession, .navigateToURL "task_ab" "https://example.com" "load" 30000],
       .ok "map[message:Navigation completed successfully session_id:task_ab success:true timeout_ms:30000 url:https://example.com wait_until:load]") :=
  rfl

/-- C5 (amended): required string parameters that are absent, wrongly typed
or empty fail with an error naming the parameter, and enum-constrained
string parameters with an invalid value fail naming the parameter and the
allowed values; but a wrongly typed present value for an *optional*
parameter is silently ignored and the declared default is used (numeric
parameters accept both `int` and `float64` at the boundary). -/
theorem c5_amended_param_extraction :
    (∀ (pw : BrowserAutomation) (args : List (String × GoVal)) (v : GoVal),
        lookupArg args "url" = some v → v.asStr = none →
        navigateToURLHandler pw args =
          ([], .error "url parameter is required and must be a non-empty string")) ∧
    (∀ (args : List (String × GoVal)) (v : GoVal),
        lookupArg args "timeout" = some v → v.asInt = none → v.asFloat = none →
        navTimeout args = 30000) ∧
    (∀ (args : List (String × GoVal)) (v : GoVal),
        lookupArg args "click_count" = some v → v.asInt = none → v.asFloat = none →
        clickCount args = 1) ∧
    (∀ (args : List (String × GoVal)) (n : Int),
        lookupArg args "timeout" = some (.float n) → n > 0 → navTimeout args = n) ∧
    (∀ (pw : BrowserAutomation) (args : List (String × GoVal)),
        lookupArg args "selector" = some (.str "#b") →
        lookupArg args "button" = some (.str "diagonal") →
        clickElementHandler pw args =
          ([], .error "invalid button value: diagonal. Must be one of: left, right, middle")) := by
  refine ⟨?_, ?_, ?_, ?_, ?_⟩
  · intro pw args v h hv
    unfold navigateToURLHandler
    rw [h]
    cases v <;> simp_all [GoVal.asStr]
  · intro args v h h1 h2
    unfold navTimeout
    rw [h]
    cases v <;> simp_all [GoVal.asInt, GoVal.asFloat]
  · intro args v h h1 h2
    unfold clickCount
    rw [h]
    cases v <;> simp_all [GoVal.asInt, GoVal.asFloat]
  · intro args n h hn
    unfold navTimeout
    rw [h]
    simp [hn]
  · intro pw args h1 h2
    unfold clickElementHandler
    rw [h1, h2]
    simp [isValidButton]

/-- C5 witness: the amended statement at concrete inputs. -/
theorem c5_amended_param_extraction_witness :
    navigateToURLHandler pwOk [("url", .int 7)] =
      ([], .error "url parameter is required and must be a non-empty string") ∧
    navTimeout [("timeout", .str "soon")] = 30000 ∧
    clickCount [("click_count", .bool true)] = 1 ∧
    navTimeout [("timeout", .float 2500)] = 2500 ∧
    clickElementHandler pwOk [("selector", .str "#b"), ("button", .str "diagonal")] =
      ([], .error "invalid button value: diagonal. Must be one of: left, right, middle") :=
  ⟨c5_amended_param_extraction.1 pwOk _ (.int 7) rfl rfl,
   c5_amended_param_extraction.2.1 _ (.str "soon") rfl rfl rfl,
   c5_amended_param_extraction.2.2.1 _ (.bool true) rfl rfl rfl,
   c5_amended_param_extraction.2.2.2.1 _ 2500 rfl (by decide),
   c5_amended_param_extraction.2.2.2.2 pwOk _ rfl rfl⟩

/-- C6: `navigate_to_url` URL normalisation — a missing scheme leads to a
`https://` prepend and re-parse; a scheme other than `http`/`https` is
rejected; an empty host is rejected; and the four boundary examples behave
exactly as the spec states. -/
theorem c6_url_normalisation :
    (∀ (s : String) (p : GoURL), s ≠ "" → goURLParse s = .ok p → p.scheme = "" →
        validateAndNormalizeURL s =
          (match goURLParse ("https://" ++ s) with
           | .error e => .error ("invalid URL format: " ++ e)
           | .ok p2 => checkParsedURL p2)) ∧
    (∀ (s : String) (p : GoURL), s ≠ "" → goURLParse s = .ok p →
        p.scheme ≠ "" → p.scheme ≠ "http" → p.scheme ≠ "https" →
        validateAndNormalizeURL s =
          .error ("unsupported URL scheme: " ++ p.scheme ++ ". Only http and https are supported")) ∧
    (∀ (s : String) (p : GoURL), s ≠ "" → goURLParse s = .ok p →
        (p.scheme = "http" ∨ p.scheme = "https") → p.host = "" →
        validateAndNormalizeURL s = .error "URL must include a valid host") ∧
    validateAndNormalizeURL "example.com" = .ok "https://example.com" ∧
    validateAndNormalizeURL "ftp://x" =
      .error "unsupported URL scheme: ftp. Only http and https are supported" ∧
    validateAndNormalizeURL "https://" = .error "URL must include a valid host" ∧
    validateAndNormalizeURL "ht tp://x" =
      .error "invalid URL format: parse \"ht tp://x\": first path segment in URL cannot contain colon" := by
  refine ⟨?_, ?_, ?_, rfl, rfl, rfl, rfl⟩
  · intro s p hs hp hscheme
    unfold validateAndNormalizeURL
    rw [if_neg hs, hp]
    simp [hscheme]
  · intro s p hs hp h0 h1 h2
    unfold validateAndNormalizeURL
    rw [if_neg hs, hp]
    simp [h0, checkParsedURL, h1, h2]
  · intro s p hs hp hsch hhost
    unfold validateAndNormalizeURL
    rw [if_neg hs, hp]
    rcases hsch with h | h <;> simp [h, checkParsedURL, hhost]

/-- C6 witness: the generic parts of the normalisation theorem applied to
the boundary inputs. -/
theorem c6_url_normalisation_witness :
    validateAndNormalizeURL "example.com" =
      (match goURLParse ("https://" ++ "example.com") with
       | .error e => .error ("invalid URL format: " ++ e)
       | .ok p2 => checkParsedURL p2) ∧
    validateAndNormalizeURL "ftp://x" =
      .error ("unsupported URL scheme: " ++ "ftp" ++ ". Only http and https are supported") ∧
    validateAndNormalizeURL "https://" = .error "URL must include a valid host" :=
  ⟨c6_url_normalisation.1 "example.com" ⟨"", "", "", "example.com", "", ""⟩ (by decide) rfl rfl,
   c6_url_normalisation.2.1 "ftp://x" ⟨"ftp", "", "x", "", "", ""⟩ (by decide) rfl
     (by decide) (by decide) (by decide),
   c6_url_normalisation.2.2.1 "https://" ⟨"https", "", "", "", "", ""⟩ (by decide) rfl
     (Or.inr rfl) rfl⟩

/-- C7: on the legacy driver result `map[title:  Hello   World  links:[/a /b]]`
with format `json`, the emitted `data` object is exactly
`{"title":"Hello World","links":["/a","/b"]}` (trimmed, inner whitespace
collapsed) and `metadata.total_fields` is 2 — for any extraction time and
extractor list. -/
theorem c7_extract_json_normalisation :
    ∀ (now : Int) (extractors : List GoVal),
      formatAsJSON "map[title:  Hello   World  links:[/a /b]]" extractors now =
        .ok [("success", .bool true),
             ("format", .str "json"),
             ("extractors", .int extractors.length),
             ("data", .obj [("title", .str "Hello World"),
                            ("links", .arr [.str "/a", .str "/b"])]),
             ("metadata", .obj [("extraction_time", .int now),
                                ("total_fields", .int 2)])] := by
  intro now extractors
  rfl

/-- C7 witness: the normalisation at a concrete time and extractor list. -/
theorem c7_extract_json_normalisation_witness :
    formatAsJSON "map[title:  Hello   World  links:[/a /b]]" [.map []] 1700000000 =
      .ok [("success", .bool true),
           ("format", .str "json"),
           ("extractors", .int 1),
           ("data", .obj [("title", .str "Hello World"),
                          ("links", .arr [.str "/a", .str "/b"])]),
           ("metadata", .obj [("extraction_time", .int 1700000000),
                              ("total_fields", .int 2)])] :=
  c7_extract_json_normalisation 1700000000 [.map []]

/-- C8 counterexample: the runtime path of a byte-produced artifact is the
hard-coded `/tmp/artifacts/runtime/<artifact-id>/<filename>`, which is not
`<data-dir>/runtime/<artifact-id>/<filename>` for the default configured
data directory `/tmp/playwright/artifacts` (README), nor for any other. -/
theorem c8_runtime_path_not_under_data_dir :
    ((CreateFileArtifactFromBytesWithRegistry true true [] "art1" "T" "D" "data.json" 4
        (some "application/json") [] 0).2.map ArtifactEntry.filePath) =
      some "/tmp/artifacts/runtime/art1/data.json" ∧
    "/tmp/artifacts/runtime/art1/data.json" ≠
      goFilepathJoin (goFilepathJoin (goFilepathJoin "/tmp/playwright/artifacts" "runtime")
        "art1") "data.json" :=
  ⟨rfl, by decide⟩

/-- C8 (amended): every artifact produced from in-memory bytes is written
to the fixed path `/tmp/artifacts/runtime/<artifact-id>/<filename>` —
independent of the configured data directory — and when the write succeeds
the registry entry created for it records exactly that path. -/
theorem c8_amended_runtime_path (mkdirOk writeOk : Bool) (reg : ArtifactMap)
    (id title desc fn : String) (len : Nat) (mime : Option String)
    (meta : List (String × GoVal)) (now : Int)
    (h1 : mkdirOk = true) (h2 : writeOk = true) :
    ((CreateFileArtifactFromBytesWithRegistry mkdirOk writeOk reg id title desc fn len
        mime meta now).2.map ArtifactEntry.filePath) =
      some ("/tmp/artifacts/runtime/" ++ id ++ "/" ++ fn) ∧
    GetArtifact (CreateFileArtifactFromBytesWithRegistry mkdirOk writeOk reg id title desc fn len
        mime meta now).1 id =
      (CreateFileArtifactFromBytesWithRegistry mkdirOk writeOk reg id title desc fn len
        mime meta now).2 := by
  subst h1
  subst h2
  have hne : ("/tmp/artifacts/runtime/" ++ id) ≠ "" :=
    string_append_ne_empty_left "/tmp/artifacts/runtime/" id (by decide)
  unfold CreateFileArtifactFromBytesWithRegistry
  simp [goFilepathJoin, hne, GetArtifact, RegisterArtifact, List.find?]

/-- C8 witness: the amended statement at a concrete input. -/
theorem c8_amended_runtime_path_witness :
    ((CreateFileArtifactFromBytesWithRegistry true true [] "art2" "T2" "D2" "notes.txt" 9
        (some "text/plain") [] 7).2.map ArtifactEntry.filePath) =
      some ("/tmp/artifacts/runtime/" ++ "art2" ++ "/" ++ "notes.txt") ∧
    GetArtifact (CreateFileArtifactFromBytesWithRegistry true true [] "art2" "T2" "D2" "notes.txt" 9
        (some "text/plain") [] 7).1 "art2" =
      (CreateFileArtifactFromBytesWithRegistry true true [] "art2" "T2" "D2" "notes.txt" 9
        (some "text/plain") [] 7).2 :=
  c8_amended_runtime_path true true [] "art2" "T2" "D2" "notes.txt" 9
    (some "text/plain") [] 7 rfl rfl

/-- C9: `take_screenshot` validates `quality` only for `type = jpeg`: a
jpeg request with quality outside 0..100 fails with the invalid-parameter
message before any driver call (for every driver oracle), while a png
request proceeds with any quality value, which is passed through to the
driver unchecked. -/
theorem c9_screenshot_quality_validation :
    (∀ (pw : BrowserAutomation) (artifactCreate : Except String (String × String))
        (args : List (String × GoVal)) (q : Int),
        lookupArg args "type" = some (.str "jpeg") →
        screenshotQuality args = q → (q < 0 ∨ q > 100) →
        takeScreenshotHandler (.ok ()) "/tmp/playwright/artifacts" "ts" "rfc" pw artifactCreate args =
          ([], .error ("quality must be between 0 and 100 for JPEG images, got " ++ toString q))) ∧
    (∀ q : Int,
        takeScreenshotHandler (.ok ()) "/tmp/playwright/artifacts" "ts" "rfc" pwOk (.ok ("u", "a1"))
            [("type", .str "png"), ("quality", .int q)] =
          ([.getOrCreateTaskSession,
            .takeScreenshot "task_ab" "/tmp/playwright/artifacts/viewport_ts.png" false "" "png" q],
           .ok [("success", .bool true),
                ("path", .str "/tmp/playwright/artifacts/viewport_ts.png"),
                ("filename", .str "viewport_ts.png"),
                ("full_page", .bool false),
                ("type", .str "png"),
                ("quality", .int q),
                ("selector", .str ""),
                ("session_id", .str "task_ab"),
                ("timestamp", .str "rfc"),
                ("artifact_id", .str "a1"),
                ("url", .str "u"),
                ("message", .str "Screenshot captured successfully. Download URL: u")])) := by
  constructor
  · intro pw artifactCreate args q htype hq hrange
    obtain ⟨gp, hgp⟩ :
        ∃ gp, generateDeterministicPath (.ok ()) "/tmp/playwright/artifacts" "ts" args = .ok gp :=
      ⟨_, rfl⟩
    unfold takeScreenshotHandler
    rw [hgp, htype]
    rcases hrange with h | h <;> simp [hq, isValidImageType, h]
  · intro q
    rfl

/-- C9 witness: the two parts at concrete qualities (150 for jpeg, 999 for
png). -/
theorem c9_screenshot_quality_validation_witness :
    takeScreenshotHandler (.ok ()) "/tmp/playwright/artifacts" "ts" "rfc" pwOk (.ok ("u", "a1"))
        [("type", .str "jpeg"), ("quality", .int 150)] =
      ([], .error ("quality must be between 0 and 100 for JPEG images, got " ++ toString (150 : Int))) ∧
    takeScreenshotHandler (.ok ()) "/tmp/playwright/artifacts" "ts" "rfc" pwOk (.ok ("u", "a1"))
        [("type", .str "png"), ("quality", .int 999)] =
      ([.getOrCreateTaskSession,
        .takeScreenshot "task_ab" "/tmp/playwright/artifacts/viewport_ts.png" false "" "png" 999],
       .ok [("success", .bool true),
            ("path", .str "/tmp/playwright/artifacts/viewport_ts.png"),
            ("filename", .str "viewport_ts.png"),
            ("full_page", .bool false),
            ("type", .str "png"),
            ("quality", .int 999),
            ("selector", .str ""),
            ("session_id", .str "task_ab"),
            ("timestamp", .str "rfc"),
            ("artifact_id", .str "a1"),
            ("url", .str "u"),
            ("message", .str "Screenshot captured successfully. Download URL: u")]) :=
  ⟨c9_screenshot_quality_validation.1 pwOk (.ok ("u", "a1"))
      [("type", .str "jpeg"), ("quality", .int 150)] 150 rfl rfl (by decide),
   c9_screenshot_quality_validation.2 999⟩

/-- C10: `RegisterArtifact` is a plain Go-map assignment: registering an
entry under an identifier already present never fails and silently replaces
the previous entry — a subsequent `GetArtifact` returns the newly
registered entry, so the registry operation itself does not enforce that
identifiers are never reused. -/
theorem c10_register_artifact_last_writer_wins (reg : ArtifactMap) (e1 e2 : ArtifactEntry)
    (h : e1.id = e2.id) :
    GetArtifact (RegisterArtifact reg e1) e1.id = some e1 ∧
    GetArtifact (RegisterArtifact (RegisterArtifact reg e1) e2) e1.id = some e2 := by
  constructor
  · simp [GetArtifact, RegisterArtifact, List.find?]
  · simp [GetArtifact, RegisterArtifact, List.find?, h]

/-- C10 witness: two concrete entries sharing identifier `a1`. -/
theorem c10_register_artifact_last_writer_wins_witness :
    GetArtifact (RegisterArtifact [] sampleEntry1) sampleEntry1.id = some sampleEntry1 ∧
    GetArtifact (RegisterArtifact (RegisterArtifact [] sampleEntry1) sampleEntry2)
        sampleEntry1.id = some sampleEntry2 :=
  c10_register_artifact_last_writer_wins [] sampleEntry1 sampleEntry2 rfl

end BrowserAgent
